import Mathlib

/-!
Shallow embedding of the phishing-detector backend (`main.py`).

The service exposes `GET /health` and `POST /check`.  `check_url` validates
the credential and the `url` field, performs one outbound call to the
inference provider, and normalizes the provider's labelled-score response
into a classification result.  Scores are modelled as rationals: every
property below concerns order comparisons and `max`, which agree between
IEEE doubles (as Python uses them on these literals) and `ℚ`.

The outbound call is modelled by an explicit `UpstreamOutcome` argument, and
`check_url` additionally returns a `Bool` recording whether the outbound
call was attempted, so that "no network side effect" claims are statable.
-/

namespace PhishingDetector

/-- `os.getenv("HF_MODEL_ID", "swathi6016/phishing-detector1")`: the default
model identifier. -/
def defaultModelId : String := "swathi6016/phishing-detector1"

/-- The environment-sourced configuration: `HF_TOKEN` (absent = `None`) and
`HF_MODEL_ID`. -/
structure Config where
  hfToken : Option String
  hfModelId : String
deriving DecidableEq

/-- Python `not HF_TOKEN`: true when the variable is unset (`None`) or the
empty string. -/
def tokenMissing : Option String → Bool
  | none => true
  | some s => s.isEmpty

/-- One prediction dict from the provider.  `none` models an absent key:
`pred.get("label", "")` and `pred.get("score", 0.0)`. -/
structure Pred where
  label : Option String
  score : Option ℚ
deriving DecidableEq

/-- `label.lower()`, as a character list. -/
def lowerChars (s : String) : List Char := s.data.map Char.toLower

/-- Python `needle in hay` on strings: substring containment. -/
def hasSub (needle : List Char) : List Char → Bool
  | [] => needle.isEmpty
  | c :: rest => needle.isPrefixOf (c :: rest) || hasSub needle rest

/-- `pred.get("label", "").lower()`. -/
def labelOf (p : Pred) : List Char := lowerChars (p.label.getD "")

/-- `pred.get("score", 0.0)`. -/
def scoreOf (p : Pred) : ℚ := p.score.getD 0

/-- `"1" in label or "phishing" in label`. -/
def phishP (p : Pred) : Bool :=
  hasSub "1".data (labelOf p) || hasSub "phishing".data (labelOf p)

/-- `"0" in label or "legitimate" in label`. -/
def legitP (p : Pred) : Bool :=
  hasSub "0".data (labelOf p) || hasSub "legitimate".data (labelOf p)

/-- The entries that take the `elif` branch: label matches the legitimate
pattern and not the phishing pattern. -/
def legitFilter (p : Pred) : Bool := !phishP p && legitP p

/-- The `for pred in predictions` loop: fold over the predictions carrying
`(phishing_score, legitimate_score)`, initially `(0.0, 0.0)`. -/
def scanPreds : List Pred → ℚ → ℚ → ℚ × ℚ
  | [], ph, le => (ph, le)
  | p :: rest, ph, le =>
    if phishP p then scanPreds rest (scoreOf p) le
    else if legitP p then scanPreds rest ph (scoreOf p)
    else scanPreds rest ph le

/-- The canonical JSON object `POST /check` returns on success. -/
structure ClassificationResult where
  url : String
  is_phishing : Bool
  phishing_probability : ℚ
  legitimate_probability : ℚ
  confidence : ℚ
  prediction : String
  risk_level : String
deriving DecidableEq

/-- The risk tiering step function of `phishing_score`.  The thresholds are
the literals `0.8` and `0.5` of lines 107 and 109, written `mkRat` so that
concrete runs reduce in the kernel. -/
def riskLevel (ph : ℚ) : String :=
  if ph > mkRat 8 10 then "HIGH RISK"
  else if ph > mkRat 5 10 then "MEDIUM RISK"
  else "LOW RISK"

/-- Lines 102-122 of `main.py`: run the loop and assemble the result. -/
def buildResult (url : String) (preds : List Pred) : ClassificationResult :=
  let s := scanPreds preds 0 0
  { url := url
    is_phishing := decide (s.1 > s.2)
    phishing_probability := s.1
    legitimate_probability := s.2
    confidence := max s.1 s.2
    prediction := if s.1 > s.2 then "PHISHING" else "LEGITIMATE"
    risk_level := riskLevel s.1 }

/-- One element of the parsed JSON body when that body is a list: either
itself a list of prediction dicts, or a prediction dict. -/
inductive HFElem where
  | inner (preds : List Pred)
  | entry (p : Pred)
deriving DecidableEq

/-- The parsed JSON body of a 200 response: a list, or anything else
(`notList` covers dicts, strings, numbers, ...). -/
inductive HFBody where
  | notList
  | ofList (elems : List HFElem)
deriving DecidableEq

/-- Either a success payload or `HTTPException(status_code, detail)`. -/
inductive HandlerResult where
  | ok (r : ClassificationResult)
  | err (statusCode : Nat) (detail : String)
deriving DecidableEq

def unexpectedFormatMsg : String := "Unexpected response format from model"

/-- When `predictions = result` and some element is itself a list, Python's
`pred.get` raises `AttributeError`, caught by the generic handler. -/
def attrErrorMsg : String := "Internal error: 'list' object has no attribute 'get'"

def tokenMsg : String := "HF_TOKEN not configured. Please set environment variable."

def urlRequiredMsg : String := "URL is required"

def loadingMsg : String := "Model is loading. Please try again in 20 seconds."

def timeoutMsg : String := "Request timeout. Please try again."

/-- Iterating `pred.get` over the body's own elements: succeeds when every
element is a dict, raises (generic 500) at a list element. -/
def elemsToPreds : List HFElem → Option (List Pred)
  | [] => some []
  | .entry p :: rest => (elemsToPreds rest).map (fun l => p :: l)
  | .inner _ :: _ => none

/-- Lines 85-127 of `main.py`: the decision normalizer.  A non-list or empty
body fails with the unexpected-format 500; when the first element is a list
the body is unwrapped one level; otherwise the body itself is the
prediction sequence. -/
def normalize (url : String) : HFBody → HandlerResult
  | .notList => .err 500 unexpectedFormatMsg
  | .ofList [] => .err 500 unexpectedFormatMsg
  | .ofList (first :: rest) =>
    match first with
    | .inner preds => .ok (buildResult url preds)
    | .entry p =>
      match elemsToPreds (HFElem.entry p :: rest) with
      | some preds => .ok (buildResult url preds)
      | none => .err 500 attrErrorMsg

/-- An HTTP response from the provider.  `loadingMentioned` models
`"loading" in str(response.json()).lower()`; `body` is the parsed JSON. -/
structure UpstreamHttp where
  statusCode : Nat
  text : String
  loadingMentioned : Bool
  body : HFBody
deriving DecidableEq

/-- What the single outbound `httpx` call did. -/
inductive UpstreamOutcome where
  | http (r : UpstreamHttp)
  | timeout
  | connError (msg : String)
deriving DecidableEq

/-- Lines 68-127: the part of the handler that looks at the HTTP response. -/
def handleHttp (url : String) (r : UpstreamHttp) : HandlerResult :=
  if r.statusCode = 503 ∧ r.loadingMentioned then .err 503 loadingMsg
  else if r.statusCode ≠ 200 then
    .err r.statusCode ("HuggingFace API error: " ++ r.text)
  else normalize url r.body

/-- `POST /check` (lines 46-145).  `req` is the value of the request body's
`"url"` key (`none` when absent).  The second component records whether the
outbound call was attempted. -/
def check_url (cfg : Config) (req : Option String) (up : UpstreamOutcome) :
    HandlerResult × Bool :=
  if tokenMissing cfg.hfToken then (.err 500 tokenMsg, false)
  else
    let url := req.getD ""
    if url = "" then (.err 400 urlRequiredMsg, false)
    else
      match up with
      | .http r => (handleHttp url r, true)
      | .timeout => (.err 504 timeoutMsg, true)
      | .connError msg => (.err 500 ("Connection error: " ++ msg), true)

/-- The `GET /health` response body. -/
structure HealthResponse where
  status : String
  model : String
  usingField : String
deriving DecidableEq

/-- `GET /health` (lines 37-44).  `usingField` is the JSON key `"using"`
(a Lean keyword, hence the rename). -/
def health (cfg : Config) : HealthResponse :=
  { status := "healthy"
    model := cfg.hfModelId
    usingField := "HuggingFace Inference API" }

/-! ### Helper lemmas about the prediction loop -/

/-- Score of the last element of `l`, defaulting to `d` when `l` is empty. -/
def lastD : List Pred → ℚ → ℚ
  | [], d => d
  | p :: l, _ => lastD l (scoreOf p)

theorem lastD_cons (p : Pred) (l : List Pred) (d : ℚ) :
    lastD (p :: l) d = lastD l (scoreOf p) := rfl

/-- `lastD` really returns the last element's score. -/
theorem lastD_concat (l : List Pred) (p : Pred) (d : ℚ) :
    lastD (l ++ [p]) d = scoreOf p := by
  induction l generalizing d with
  | nil => rfl
  | cons q rest ih => simp [lastD, ih]

/-- The final `phishing_score` is the score of the last entry whose label
matches the phishing pattern, or the accumulator if none does. -/
theorem scanPreds_fst (l : List Pred) : ∀ ph le : ℚ,
    (scanPreds l ph le).1 = lastD (l.filter phishP) ph := by
  induction l with
  | nil => intro ph le; rfl
  | cons p rest ih =>
    intro ph le
    by_cases hp : phishP p = true
    · simp [scanPreds, hp, List.filter_cons, ih, lastD_cons]
    · by_cases hl : legitP p = true <;>
        simp [scanPreds, hp, hl, List.filter_cons, ih]

/-- The final `legitimate_score` is the score of the last entry that takes
the `elif` branch, or the accumulator if none does. -/
theorem scanPreds_snd (l : List Pred) : ∀ ph le : ℚ,
    (scanPreds l ph le).2 = lastD (l.filter legitFilter) le := by
  induction l with
  | nil => intro ph le; rfl
  | cons p rest ih =>
    intro ph le
    by_cases hp : phishP p = true
    · have hf : legitFilter p = false := by simp [legitFilter, hp]
      simp [scanPreds, hp, List.filter_cons, hf, ih]
    · by_cases hl : legitP p = true
      · have hf : legitFilter p = true := by simp [legitFilter, hp, hl]
        simp [scanPreds, hp, hl, List.filter_cons, hf, ih, lastD_cons]
      · have hf : legitFilter p = false := by simp [legitFilter, hp, hl]
        simp [scanPreds, hp, hl, List.filter_cons, hf, ih]

theorem scanPreds_append (l1 l2 : List Pred) : ∀ ph le : ℚ,
    scanPreds (l1 ++ l2) ph le =
      scanPreds l2 (scanPreds l1 ph le).1 (scanPreds l1 ph le).2 := by
  induction l1 with
  | nil => intro ph le; rfl
  | cons p rest ih =>
    intro ph le
    by_cases hp : phishP p = true
    · simp [scanPreds, hp, ih]
    · by_cases hl : legitP p = true <;> simp [scanPreds, hp, hl, ih]

/-- Entries matching neither pattern leave the accumulator untouched. -/
theorem scanPreds_ignore (p : Pred) (hp : phishP p = false)
    (hl : legitP p = false) (l1 l2 : List Pred) (ph le : ℚ) :
    scanPreds (l1 ++ p :: l2) ph le = scanPreds (l1 ++ l2) ph le := by
  rw [scanPreds_append, scanPreds_append]
  simp [scanPreds, hp, hl]

theorem filter_legitFilter_nil (l : List Pred)
    (h : l.filter legitP = []) : l.filter legitFilter = [] := by
  induction l with
  | nil => rfl
  | cons p rest ih =>
    by_cases hl : legitP p = true
    · rw [List.filter_cons_of_pos hl] at h
      exact absurd h (by simp)
    · have hl' : legitP p = false := by simpa using hl
      have hf : legitFilter p = false := by simp [legitFilter, hl']
      rw [List.filter_cons_of_neg (by simp [hl'])] at h
      rw [List.filter_cons_of_neg (by simp [hf])]
      exact ih h

/-- When exactly one entry matches the legitimate pattern and that entry
does not match the phishing pattern, it is also the unique entry taking
the `elif` branch. -/
theorem filter_legitFilter_single (l : List Pred) (b : Pred)
    (h : l.filter legitP = [b]) (hb : phishP b = false) :
    l.filter legitFilter = [b] := by
  induction l with
  | nil => simp at h
  | cons p rest ih =>
    by_cases hl : legitP p = true
    · rw [List.filter_cons_of_pos hl] at h
      obtain ⟨hpb, hrest⟩ := List.cons_eq_cons.mp h
      have hpp : phishP p = false := by rw [hpb]; exact hb
      have hf : legitFilter p = true := by simp [legitFilter, hl, hpp]
      rw [List.filter_cons_of_pos hf, filter_legitFilter_nil rest hrest, hpb]
    · have hl' : legitP p = false := by simpa using hl
      have hf : legitFilter p = false := by simp [legitFilter, hl']
      rw [List.filter_cons_of_neg (by simp [hl'])] at h
      rw [List.filter_cons_of_neg (by simp [hf])]
      exact ih h

theorem elemsToPreds_map_entry (l : List Pred) :
    elemsToPreds (l.map HFElem.entry) = some l := by
  induction l with
  | nil => rfl
  | cons p rest ih => simp [elemsToPreds, ih]

/-! ### Claim theorems -/

/-- Claim C1: when the prediction sequence has exactly one entry whose
lower-cased label matches the phishing pattern (score `p`) and exactly one
entry matching the legitimate pattern (score `l`, and as the spec's
`else if` requires, not also matching the phishing pattern), the normalizer
returns `is_phishing = (p > l)`, `phishing_probability = p`,
`legitimate_probability = l`, `confidence = max p l`, and
`prediction = "PHISHING"` exactly when `is_phishing`; a strict tie `p = l`
gives `is_phishing = false`, and so does the all-defaults `0/0` case when
no label matched either pattern. -/
theorem C1_two_label_normalization (url : String) (preds : List Pred)
    (a b : Pred) (ha : preds.filter phishP = [a])
    (hb : preds.filter legitP = [b]) (hnb : phishP b = false) :
    (buildResult url preds).is_phishing = decide (scoreOf a > scoreOf b) ∧
    (buildResult url preds).phishing_probability = scoreOf a ∧
    (buildResult url preds).legitimate_probability = scoreOf b ∧
    (buildResult url preds).confidence = max (scoreOf a) (scoreOf b) ∧
    ((buildResult url preds).prediction = "PHISHING" ↔
      (buildResult url preds).is_phishing = true) ∧
    (scoreOf a = scoreOf b → (buildResult url preds).is_phishing = false) ∧
    (∀ (url' : String) (preds' : List Pred), preds'.filter phishP = [] →
      preds'.filter legitP = [] →
      (buildResult url' preds').is_phishing = false) := by
  have hfst : (scanPreds preds 0 0).1 = scoreOf a := by
    rw [scanPreds_fst, ha]; rfl
  have hsnd : (scanPreds preds 0 0).2 = scoreOf b := by
    rw [scanPreds_snd, filter_legitFilter_single preds b hb hnb]; rfl
  refine ⟨?_, ?_, ?_, ?_, ?_, ?_, ?_⟩
  · simp [buildResult, hfst, hsnd]
  · simp [buildResult, hfst]
  · simp [buildResult, hsnd]
  · simp [buildResult, hfst, hsnd]
  · simp only [buildResult, hfst, hsnd]
    by_cases hab : scoreOf a > scoreOf b
    · simp [hab]
    · simp [hab]
  · intro heq
    simp [buildResult, hfst, hsnd, heq]
  · intro url' preds' hp' hl'
    have h1 : (scanPreds preds' 0 0).1 = 0 := by
      rw [scanPreds_fst, hp']; rfl
    have h2 : (scanPreds preds' 0 0).2 = 0 := by
      rw [scanPreds_snd, filter_legitFilter_nil preds' hl']; rfl
    simp [buildResult, h1, h2]

/-- Witness for C1 on the spec's own scenario: labels `LABEL_1`/`LABEL_0`
with scores `0.92`/`0.08`. -/
theorem C1_two_label_normalization_witness :
    (buildResult "http://example.com"
      [⟨some "LABEL_1", some (mkRat 92 100)⟩,
       ⟨some "LABEL_0", some (mkRat 8 100)⟩]).is_phishing = true ∧
    (buildResult "http://example.com"
      [⟨some "LABEL_1", some (mkRat 92 100)⟩,
       ⟨some "LABEL_0", some (mkRat 8 100)⟩]).phishing_probability =
      mkRat 92 100 := by
  have h := C1_two_label_normalization "http://example.com"
    [⟨some "LABEL_1", some (mkRat 92 100)⟩,
     ⟨some "LABEL_0", some (mkRat 8 100)⟩]
    ⟨some "LABEL_1", some (mkRat 92 100)⟩
    ⟨some "LABEL_0", some (mkRat 8 100)⟩
    (by decide) (by decide) (by decide)
  exact ⟨by rw [h.1]; decide, by rw [h.2.1]; rfl⟩

/-- Claim C2: `risk_level` is a function of `phishing_probability` alone,
with strict-greater-than thresholds `0.8` and `0.5`; boundary inputs
`0.81, 0.80, 0.51, 0.50, 0.0` give HIGH, MEDIUM, MEDIUM, LOW, LOW. -/
theorem C2_risk_tiering (url : String) (preds : List Pred) (ph : ℚ) :
    (buildResult url preds).risk_level =
      riskLevel (buildResult url preds).phishing_probability ∧
    (ph > mkRat 8 10 → riskLevel ph = "HIGH RISK") ∧
    (¬ ph > mkRat 8 10 → ph > mkRat 5 10 → riskLevel ph = "MEDIUM RISK") ∧
    (¬ ph > mkRat 8 10 → ¬ ph > mkRat 5 10 → riskLevel ph = "LOW RISK") ∧
    riskLevel (mkRat 81 100) = "HIGH RISK" ∧
    riskLevel (mkRat 80 100) = "MEDIUM RISK" ∧
    riskLevel (mkRat 51 100) = "MEDIUM RISK" ∧
    riskLevel (mkRat 50 100) = "LOW RISK" ∧
    riskLevel 0 = "LOW RISK" := by
  refine ⟨rfl, ?_, ?_, ?_, by decide, by decide, by decide, by decide,
    by decide⟩
  · intro h; simp [riskLevel, h]
  · intro h1 h2; simp [riskLevel, h1, h2]
  · intro h1 h2; simp [riskLevel, h1, h2]

/-- Witness for C2 at `phishing_probability = 0.9`. -/
theorem C2_risk_tiering_witness : riskLevel (mkRat 9 10) = "HIGH RISK" :=
  (C2_risk_tiering "u" [] (mkRat 9 10)).2.1 (by decide)

/-- Counterexample to claim C3: the handler does not trim whitespace.  With
the credential set, a whitespace-only `"url"` of `" "` passes the
`if not url` check, the outbound call is attempted (second component
`true`), and the request does not fail with 400 "URL is required". -/
theorem C3_counterexample :
    (check_url ⟨some "token", defaultModelId⟩ (some " ")
      UpstreamOutcome.timeout).2 = true ∧
    check_url ⟨some "token", defaultModelId⟩ (some " ")
      UpstreamOutcome.timeout = (.err 504 timeoutMsg, true) := by decide

/-- Claim C3 as amended: with the credential present, a `/check` request
whose `"url"` field is missing or exactly the empty string (no whitespace
trimming is performed) fails with 400 "URL is required" and no outbound
call is attempted; whitespace-only strings are not rejected. -/
theorem C3_empty_url_400 (cfg : Config) (req : Option String)
    (up : UpstreamOutcome) (htok : tokenMissing cfg.hfToken = false)
    (hurl : req.getD "" = "") :
    check_url cfg req up = (.err 400 urlRequiredMsg, false) := by
  simp [check_url, htok, hurl]

/-- Witness for C3: a request with no `"url"` key at all. -/
theorem C3_empty_url_400_witness :
    check_url ⟨some "token", defaultModelId⟩ none UpstreamOutcome.timeout =
      (.err 400 urlRequiredMsg, false) :=
  C3_empty_url_400 ⟨some "token", defaultModelId⟩ none
    UpstreamOutcome.timeout (by decide) (by decide)

/-- Claim C4: with the credential absent (unset or empty), every `/check`
request fails with 500 and the "HF_TOKEN not configured" message, no
outbound call is attempted, and the failure is never a 400-class one. -/
theorem C4_missing_token (cfg : Config) (req : Option String)
    (up : UpstreamOutcome) (h : tokenMissing cfg.hfToken = true) :
    check_url cfg req up = (.err 500 tokenMsg, false) ∧
    ∀ d b, check_url cfg req up ≠ (.err 400 d, b) := by
  have hmain : check_url cfg req up = (.err 500 tokenMsg, false) := by
    simp [check_url, h]
  refine ⟨hmain, ?_⟩
  intro d b hc
  rw [hmain] at hc
  simp at hc

/-- Witness for C4: unset token, well-formed request. -/
theorem C4_missing_token_witness :
    check_url ⟨none, defaultModelId⟩ (some "http://example.com")
      UpstreamOutcome.timeout = (.err 500 tokenMsg, false) :=
  (C4_missing_token ⟨none, defaultModelId⟩ (some "http://example.com")
    UpstreamOutcome.timeout (by decide)).1

/-- Counterexample to claim C5: the code's legitimate pattern is only
`"0"`-or-`"legitimate"`, not `"legit"`.  An entry labelled exactly
`"legit"` with score `0.9` matches neither branch, so
`legitimate_probability` stays `0` instead of becoming `0.9`. -/
theorem C5_counterexample :
    legitP ⟨some "legit", some (mkRat 9 10)⟩ = false ∧
    phishP ⟨some "legit", some (mkRat 9 10)⟩ = false ∧
    (buildResult "u" [⟨some "legit", some (mkRat 9 10)⟩]).legitimate_probability
      = 0 ∧
    (mkRat 9 10 : ℚ) ≠ 0 := by decide

/-- Claim C5 as amended: an entry whose lower-cased label does not match
the phishing pattern but contains `"0"` or `"legitimate"` has its score
become the `legitimate_probability` (last-wins); the substring `"legit"`
alone is not part of the pattern, so an entry labelled exactly `"legit"`
matches neither pattern and is ignored. -/
theorem C5_legit_pattern (pre : List Pred) (p : Pred) (ph le : ℚ)
    (hp : phishP p = false) (hl : legitP p = true) :
    (scanPreds (pre ++ [p]) ph le).2 = scoreOf p ∧
    (∀ sc : Option ℚ, phishP ⟨some "legit", sc⟩ = false ∧
      legitP ⟨some "legit", sc⟩ = false) := by
  constructor
  · rw [scanPreds_append]
    simp [scanPreds, hp, hl]
  · intro sc
    exact ⟨rfl, rfl⟩

/-- Witness for C5: a trailing `LABEL_0` entry sets the legitimate score. -/
theorem C5_legit_pattern_witness :
    (scanPreds [⟨some "LABEL_0", some (mkRat 8 100)⟩] 0 0).2 =
      mkRat 8 100 :=
  (C5_legit_pattern [] ⟨some "LABEL_0", some (mkRat 8 100)⟩ 0 0
    (by decide) (by decide)).1

/-- Claim C6: the final probabilities are those of the *last* entry taking
the corresponding branch (`lastD` of the matching entries, `lastD_concat`
showing it is the last one's score), so a later matching entry overwrites
an earlier one — concretely, with two phishing-pattern entries the second
one's score wins — and entries matching neither pattern are ignored. -/
theorem C6_last_match_wins (l : List Pred) (ph le : ℚ) :
    (scanPreds l ph le).1 = lastD (l.filter phishP) ph ∧
    (scanPreds l ph le).2 = lastD (l.filter legitFilter) le ∧
    (∀ (pre : List Pred) (p q : Pred), phishP p = true → phishP q = true →
      (scanPreds (pre ++ [p] ++ [q]) ph le).1 = scoreOf q) ∧
    (∀ (l1 l2 : List Pred) (p : Pred), phishP p = false → legitP p = false →
      scanPreds (l1 ++ p :: l2) ph le = scanPreds (l1 ++ l2) ph le) := by
  refine ⟨scanPreds_fst l ph le, scanPreds_snd l ph le, ?_, ?_⟩
  · intro pre p q hp hq
    rw [scanPreds_append, scanPreds_append]
    simp [scanPreds, hq]
  · intro l1 l2 p hp hl
    exact scanPreds_ignore p hp hl l1 l2 ph le

/-- Witness for C6: two phishing-pattern entries, the later score `0.3`
wins over the earlier `0.7`. -/
theorem C6_last_match_wins_witness :
    (scanPreds [⟨some "LABEL_1", some (mkRat 7 10)⟩,
      ⟨some "phishing", some (mkRat 3 10)⟩] 0 0).1 = mkRat 3 10 :=
  (C6_last_match_wins [] 0 0).2.2.1 []
    ⟨some "LABEL_1", some (mkRat 7 10)⟩
    ⟨some "phishing", some (mkRat 3 10)⟩ (by decide) (by decide)

/-- Claim C7: a non-list or empty parsed body yields the 500
"unexpected response format" failure (and `normalize`, being a total Lean
function, never crashes); when the first element is itself a list exactly
one level is unwrapped, and otherwise the body itself is the prediction
sequence. -/
theorem C7_body_shape (url : String) :
    normalize url .notList = .err 500 unexpectedFormatMsg ∧
    normalize url (.ofList []) = .err 500 unexpectedFormatMsg ∧
    (∀ (preds : List Pred) (rest : List HFElem),
      normalize url (.ofList (.inner preds :: rest)) =
        .ok (buildResult url preds)) ∧
    (∀ preds : List Pred, preds ≠ [] →
      normalize url (.ofList (preds.map HFElem.entry)) =
        .ok (buildResult url preds)) := by
  refine ⟨rfl, rfl, fun preds rest => rfl, ?_⟩
  intro preds hne
  cases preds with
  | nil => exact absurd rfl hne
  | cons p rest =>
    simp [normalize, elemsToPreds, elemsToPreds_map_entry]

/-- Witness for C7: an unwrapped body of two prediction dicts. -/
theorem C7_body_shape_witness :
    normalize "u" (.ofList [.entry ⟨some "LABEL_1", some (mkRat 92 100)⟩,
      .entry ⟨some "LABEL_0", some (mkRat 8 100)⟩]) =
      .ok (buildResult "u" [⟨some "LABEL_1", some (mkRat 92 100)⟩,
        ⟨some "LABEL_0", some (mkRat 8 100)⟩]) :=
  (C7_body_shape "u").2.2.2
    [⟨some "LABEL_1", some (mkRat 92 100)⟩,
     ⟨some "LABEL_0", some (mkRat 8 100)⟩] (by decide)

/-- Counterexample to claim C8: `/health` returns no credential-present
boolean at all.  Its response is identical whether the credential is set
or not, and consists of `status`, `model` and the fixed `"using"` string. -/
theorem C8_counterexample :
    health ⟨none, defaultModelId⟩ = health ⟨some "token", defaultModelId⟩ ∧
    health ⟨none, defaultModelId⟩ =
      ⟨"healthy", defaultModelId, "HuggingFace Inference API"⟩ :=
  ⟨rfl, rfl⟩

/-- Claim C8 as amended: `GET /health` always returns
`{ status: "healthy", model: <configured model id>,
using: "HuggingFace Inference API" }`; it never fails and carries no
credential-presence field (its output is independent of the credential). -/
theorem C8_health (cfg : Config) :
    health cfg = ⟨"healthy", cfg.hfModelId, "HuggingFace Inference API"⟩ ∧
    (∀ (t t' : Option String) (m : String), health ⟨t, m⟩ = health ⟨t', m⟩) :=
  ⟨rfl, fun _ _ _ => rfl⟩

/-- Counterexample to claim C9: a 503 whose body does not mention
"loading" is not given the retry guidance; it falls to the generic
upstream-error mapping (status 503 with the upstream text). -/
theorem C9_counterexample :
    check_url ⟨some "token", defaultModelId⟩ (some "http://example.com")
      (UpstreamOutcome.http ⟨503, "Service Unavailable", false, .notList⟩) =
      (.err 503 ("HuggingFace API error: " ++ "Service Unavailable"), true) ∧
    ("HuggingFace API error: " ++ "Service Unavailable") ≠ loadingMsg := by
  decide

/-- Claim C9 as amended: an upstream 503 whose JSON body mentions
"loading" is surfaced as 503 with the retry-in-20-seconds guidance; a 503
without "loading" in the body falls to the generic upstream-error mapping,
still carrying status 503 and the upstream body text. -/
theorem C9_503_loading (cfg : Config) (req : Option String)
    (r : UpstreamHttp) (htok : tokenMissing cfg.hfToken = false)
    (hurl : ¬ req.getD "" = "") (h503 : r.statusCode = 503) :
    (r.loadingMentioned = true →
      check_url cfg req (.http r) = (.err 503 loadingMsg, true)) ∧
    (r.loadingMentioned = false →
      check_url cfg req (.http r) =
        (.err 503 ("HuggingFace API error: " ++ r.text), true)) := by
  constructor <;> intro hld <;>
    simp [check_url, htok, hurl, handleHttp, h503, hld]

/-- Witness for C9: a loading 503 gets the retry message. -/
theorem C9_503_loading_witness :
    check_url ⟨some "token", defaultModelId⟩ (some "http://example.com")
      (.http ⟨503, "model loading", true, .notList⟩) =
      (.err 503 loadingMsg, true) :=
  (C9_503_loading ⟨some "token", defaultModelId⟩ (some "http://example.com")
    ⟨503, "model loading", true, .notList⟩ (by decide) (by decide) rfl).1 rfl

/-- Claim C10 (implicit behaviors): the credential check precedes the URL
check, so with both the credential and the URL missing the request fails
with the 500 configuration error, not the 400 missing-URL error; an entry
with no `"label"` key gets label `""`, matches neither pattern and is
ignored; an entry with no `"score"` key contributes score `0.0` instead of
raising. -/
theorem C10_precedence_and_defaults :
    (∀ (cfg : Config) (req : Option String) (up : UpstreamOutcome),
      tokenMissing cfg.hfToken = true → req.getD "" = "" →
      check_url cfg req up = (.err 500 tokenMsg, false)) ∧
    (∀ p : Pred, p.label = none → phishP p = false ∧ legitP p = false) ∧
    (∀ (l1 l2 : List Pred) (p : Pred) (ph le : ℚ), p.label = none →
      scanPreds (l1 ++ p :: l2) ph le = scanPreds (l1 ++ l2) ph le) ∧
    (∀ (pre : List Pred) (p : Pred) (ph le : ℚ), p.score = none →
      phishP p = true → (scanPreds (pre ++ [p]) ph le).1 = 0) := by
  have hlabel : ∀ p : Pred, p.label = none →
      phishP p = false ∧ legitP p = false := by
    intro p hp
    obtain ⟨lb, sc⟩ := p
    cases hp
    exact ⟨rfl, rfl⟩
  refine ⟨?_, hlabel, ?_, ?_⟩
  · intro cfg req up htok _
    simp [check_url, htok]
  · intro l1 l2 p ph le hp
    obtain ⟨h1, h2⟩ := hlabel p hp
    exact scanPreds_ignore p h1 h2 l1 l2 ph le
  · intro pre p ph le hsc hph
    rw [scanPreds_append]
    simp [scanPreds, hph]
    obtain ⟨lb, sc⟩ := p
    cases hsc
    rfl

/-- Witness for C10: missing token and missing URL give the 500; an entry
with no label key is ignored; a phishing-labelled entry with no score key
contributes 0. -/
theorem C10_precedence_and_defaults_witness :
    check_url ⟨none, defaultModelId⟩ none UpstreamOutcome.timeout =
      (.err 500 tokenMsg, false) ∧
    scanPreds [(⟨none, some (mkRat 9 10)⟩ : Pred)] 0 0 = (0, 0) ∧
    (scanPreds [(⟨some "LABEL_1", none⟩ : Pred)] 0 0).1 = 0 := by
  have h := C10_precedence_and_defaults
  refine ⟨h.1 ⟨none, defaultModelId⟩ none UpstreamOutcome.timeout
    (by decide) (by decide), ?_, h.2.2.2 [] ⟨some "LABEL_1", none⟩ 0 0
    rfl (by decide)⟩
  have h2 := h.2.2.1 [] [] (⟨none, some (mkRat 9 10)⟩ : Pred) 0 0 rfl
  exact h2

end PhishingDetector
